import Mathlib

/-!
# Verification of the bluetooth-ots-rs OTS client core

A shallow embedding of the wire-codec layer, the directory-entry parser and
the client façade of the `bluetooth-ots-rs` repository, together with proofs
of the behavioural claims about them.

Bytes are modelled as `Nat` values below 256 inside `List Nat` buffers.
Machine integers (`u16`/`u32`/`u64`/`usize`) are modelled as `Nat` with
explicit little-endian byte (de)composition where the code slices bytes.
Fallible Rust functions returning `Result<T, Error>` become Lean functions
into `Except Error T`; Rust code that can panic (out-of-bounds slice index,
underflowing unsigned subtraction) is modelled with an `Option`/dedicated
constructor marking the panic.
-/

set_option autoImplicit false

/-! ## Little-endian byte helpers (src/src/types.rs slicing + from_le_bytes) -/

/-- Little-endian interpretation of a byte list:
the first byte is the least significant. -/
def leBytes : List Nat → Nat
  | [] => 0
  | b :: rest => b + 256 * leBytes rest

/-- `u32::from_le_bytes` on four explicit bytes. -/
def le32 (b0 b1 b2 b3 : Nat) : Nat := leBytes [b0, b1, b2, b3]

/-- The `n` least-significant little-endian bytes of `v`
(`v.to_le_bytes()[..n]`). -/
def toLeBytes (v : Nat) : Nat → List Nat
  | 0 => []
  | n + 1 => v % 256 :: toLeBytes (v / 256) n

/-! ## Error taxonomy (src/src/lib.rs `Error`) -/

/-- Operation code kinds (src/src/types.rs `OpType`). -/
inductive OpType where
  | SortOrderT
  | ListOpT
  | ListRcT
  | ActionOpT
  | ActionRcT
  deriving DecidableEq, Repr

/-- Object list operation result code (src/src/types.rs `ListRc`). -/
inductive ListRc where
  | Success
  | OperationNotSupported
  | InvalidParameter
  | OperationFailed
  | OutOfBounds
  | TooManyObjects
  | NoObject
  | ObjectIdNotFound
  deriving DecidableEq, Repr

/-- Object action operation result code (src/src/types.rs `ActionRc`). -/
inductive ActionRc where
  | Success
  | OperationNotSupported
  | InvalidParameter
  | InsufficientResources
  | InvalidObject
  | ChannelUnavailable
  | UnsupportedType
  | ProcedureNotPermitted
  | ObjectLocked
  | OperationFailed
  deriving DecidableEq, Repr

/-- OTS core error type (src/src/lib.rs `Error`; the `ots-core` crate
re-exported by the client as `CoreError` renames `InvalidProps` to
`BadProperties` and `InvalidDirFlags` to `BadDirFlags` but is otherwise
identical for the decoder-relevant variants modelled here). -/
inductive CoreError where
  | BadUtf8
  | NotSupported
  | NotFound
  | NoResponse
  | BadResponse
  | Timeout
  | BadUuidSize (n : Nat)
  | ListError (rc : ListRc)
  | ActionError (rc : ActionRc)
  | InvalidProps (v : Nat)
  | InvalidDirFlags (v : Nat)
  | NotEnoughData (actual needed : Nat)
  | BadOpCode (type_ : OpType) (code : Nat)
  deriving DecidableEq, Repr

/-! ## Opcode decoders (src/src/types.rs `impl_bc!` generated `TryFrom<u8>`) -/

/-- Object list operation code (src/src/types.rs `ListOp`). -/
inductive ListOp where
  | First
  | Last
  | Previous
  | Next
  | GoTo
  | Order
  | NumberOf
  | ClearMark
  | Response
  deriving DecidableEq, Repr

/-- `ListOp::try_from(u8)`: valid iff `First ≤ raw ≤ ClearMark` (1..=8)
or `raw == Response` (0x70). -/
def ListOp.tryFrom : Nat → Except CoreError ListOp
  | 0x01 => .ok .First
  | 0x02 => .ok .Last
  | 0x03 => .ok .Previous
  | 0x04 => .ok .Next
  | 0x05 => .ok .GoTo
  | 0x06 => .ok .Order
  | 0x07 => .ok .NumberOf
  | 0x08 => .ok .ClearMark
  | 0x70 => .ok .Response
  | n => .error (.BadOpCode .ListOpT n)

/-- `ListRc::try_from(u8)`: valid iff `Success ≤ raw ≤ ObjectIdNotFound`
(1..=8). -/
def ListRc.tryFrom : Nat → Except CoreError ListRc
  | 0x01 => .ok .Success
  | 0x02 => .ok .OperationNotSupported
  | 0x03 => .ok .InvalidParameter
  | 0x04 => .ok .OperationFailed
  | 0x05 => .ok .OutOfBounds
  | 0x06 => .ok .TooManyObjects
  | 0x07 => .ok .NoObject
  | 0x08 => .ok .ObjectIdNotFound
  | n => .error (.BadOpCode .ListRcT n)

/-- Object action operation code (src/src/types.rs `ActionOp`). -/
inductive ActionOp where
  | Create
  | Delete
  | CheckSum
  | Execute
  | Read
  | Write
  | Abort
  | Response
  deriving DecidableEq, Repr

/-- `ActionOp::try_from(u8)`: valid iff `Create ≤ raw ≤ Abort` (1..=7)
or `raw == Response` (0x60). -/
def ActionOp.tryFrom : Nat → Except CoreError ActionOp
  | 0x01 => .ok .Create
  | 0x02 => .ok .Delete
  | 0x03 => .ok .CheckSum
  | 0x04 => .ok .Execute
  | 0x05 => .ok .Read
  | 0x06 => .ok .Write
  | 0x07 => .ok .Abort
  | 0x60 => .ok .Response
  | n => .error (.BadOpCode .ActionOpT n)

/-- `ActionRc::try_from(u8)`: valid iff `Success ≤ raw ≤ OperationFailed`
(1..=0x0a). -/
def ActionRc.tryFrom : Nat → Except CoreError ActionRc
  | 0x01 => .ok .Success
  | 0x02 => .ok .OperationNotSupported
  | 0x03 => .ok .InvalidParameter
  | 0x04 => .ok .InsufficientResources
  | 0x05 => .ok .InvalidObject
  | 0x06 => .ok .ChannelUnavailable
  | 0x07 => .ok .UnsupportedType
  | 0x08 => .ok .ProcedureNotPermitted
  | 0x09 => .ok .ObjectLocked
  | 0x0a => .ok .OperationFailed
  | n => .error (.BadOpCode .ActionRcT n)

/-! ## 48-bit identifier (src/src/types.rs `Ule48`) -/

/-- `From<u64> for Ule48`: the six least-significant little-endian bytes
(`val.to_le_bytes()` truncated to 6 bytes). -/
def Ule48.fromU64 (v : Nat) : List Nat := toLeBytes v 6

/-- `From<Ule48> for u64`: `u64::from_le_bytes([b0..b5, 0, 0])`. -/
def Ule48.toU64 (raw : List Nat) : Nat := leBytes raw

/-! ## Control-point response decoders (src/src/types.rs) -/

/-- Object list control point response value (src/src/types.rs `ListRes`). -/
inductive ListRes where
  | None
  | NumberOf (count : Nat)
  deriving DecidableEq, Repr

/-- `ListRes::try_from(&[u8])` (src/src/types.rs lines 373..407):
a buffer shorter than 3 bytes is `NotEnoughData{needed: 3}`; byte 0 must
decode to `ListOp::Response`; byte 2 is the result code, and a valid
non-`Success` code becomes `ListError(rc)`; on success, if byte 1 echoes
`NumberOf` the count is the little-endian `u32` at bytes 3..7 (a buffer
shorter than 7 gives `NotEnoughData` whose `needed` field is the source's
literal `77`), otherwise the response carries no payload. -/
def ListRes.tryFrom : List Nat → Except CoreError ListRes
  | b0 :: b1 :: b2 :: rest =>
    match ListOp.tryFrom b0 with
    | .error e => .error e
    | .ok op0 =>
      if op0 = .Response then
        match ListRc.tryFrom b2 with
        | .error e => .error e
        | .ok .Success =>
          match ListOp.tryFrom b1 with
          | .error e => .error e
          | .ok .NumberOf =>
            match rest with
            | b3 :: b4 :: b5 :: b6 :: _ => .ok (.NumberOf (le32 b3 b4 b5 b6))
            | _ => .error (.NotEnoughData (rest.length + 3) 77)
          | .ok _ => .ok .None
        | .ok rc => .error (.ListError rc)
      else .error .BadResponse
  | raw => .error (.NotEnoughData raw.length 3)

/-- Object action control point response value (src/src/types.rs
`ActionRes`). -/
inductive ActionRes where
  | None
  | CheckSum (value : Nat)
  | Execute (param : List Nat)
  deriving DecidableEq, Repr

/-- `ActionRes::try_from(&[u8])` (src/src/types.rs lines 484..522):
a buffer shorter than 3 bytes is `NotEnoughData{needed: 3}`; byte 0 must
decode to `ActionOp::Response`; byte 2 is the result code, and a valid
non-`Success` code becomes `ActionError(rc)`; on success `CheckSum`
decodes the little-endian `u32` at bytes 3..7 and `Execute` returns the
bytes from index 3 verbatim. -/
def ActionRes.tryFrom : List Nat → Except CoreError ActionRes
  | b0 :: b1 :: b2 :: rest =>
    match ActionOp.tryFrom b0 with
    | .error e => .error e
    | .ok op0 =>
      if op0 = .Response then
        match ActionRc.tryFrom b2 with
        | .error e => .error e
        | .ok .Success =>
          match ActionOp.tryFrom b1 with
          | .error e => .error e
          | .ok .CheckSum =>
            match rest with
            | b3 :: b4 :: b5 :: b6 :: _ => .ok (.CheckSum (le32 b3 b4 b5 b6))
            | _ => .error (.NotEnoughData (rest.length + 3) 7)
          | .ok .Execute => .ok (.Execute rest)
          | .ok _ => .ok .None
        | .ok rc => .error (.ActionError rc)
      else .error .BadResponse
  | raw => .error (.NotEnoughData raw.length 3)

/-! ## Early-snapshot OLCP decoder (src/src/ots/types.rs `OlcpRes`)

The `ots` module snapshot decodes the same OLCP response wire format but
with `anyhow` string errors and no length guards. -/

/-- Early-snapshot OLCP response value (src/src/ots/types.rs `OlcpRes`). -/
inductive OlcpRes where
  | None
  | NumberOf (count : Nat)
  deriving DecidableEq, Repr

/-- Errors of the early-snapshot decoder (anyhow messages in the source). -/
inductive OlcpErr where
  | badOp (code : Nat)
  | badRc (code : Nat)
  | notResponse
  | opError (code : Nat)
  deriving DecidableEq, Repr

/-- `OlcpRes::try_from(&[u8])` (src/src/ots/types.rs lines 223..244).
The source indexes `raw[0]`, `raw[2]`, `raw[1]` and slices
`&raw[2..][..4]` without bounds checks; an out-of-bounds access panics,
modelled as `none`. Note the success count is taken from the four bytes
starting at index 2 (`&raw[2..][..4]`), i.e. the result-code byte is the
least-significant count byte. -/
def OlcpRes.tryFrom (raw : List Nat) : Option (Except OlcpErr OlcpRes) :=
  match raw with
  | b0 :: b1 :: b2 :: rest =>
    if b0 = 0x70 then
      if 1 ≤ b2 ∧ b2 ≤ 8 then
        if b2 = 1 then
          if 1 ≤ b1 ∧ b1 ≤ 8 ∨ b1 = 0x70 then
            if b1 = 7 then
              match rest with
              | b3 :: b4 :: b5 :: _ => some (.ok (.NumberOf (le32 b2 b3 b4 b5)))
              | _ => none
            else some (.ok .None)
          else some (.error (.badOp b1))
        else some (.error (.opError b2))
      else some (.error (.badRc b2))
    else
      if 1 ≤ b0 ∧ b0 ≤ 8 then some (.error .notResponse)
      else some (.error (.badOp b0))
  | _ => none

/-! ## Date-Time (src/src/types.rs `DateTime`) -/

/-- Object date and time: seven-byte record, year little-endian u16. -/
structure DateTime where
  year : Nat
  month : Nat
  day : Nat
  hour : Nat
  minute : Nat
  second : Nat
  deriving DecidableEq, Repr

/-- `From<&[u8; 7]> for DateTime` on the list of the seven bytes. -/
def DateTime.fromBytes7 (raw : List Nat) : DateTime :=
  { year := leBytes (raw.take 2)
    month := raw.getD 2 0
    day := raw.getD 3 0
    hour := raw.getD 4 0
    minute := raw.getD 5 0
    second := raw.getD 6 0 }

/-! ## UTF-8 validity (`core::str::from_utf8`) -/

/-- Whether a byte sequence is valid UTF-8, as checked by Rust's
`core::str::from_utf8`: ASCII, two-byte C2..DF, three-byte E0/E1..EC/ED/
EE..EF and four-byte F0/F1..F3/F4 sequences with the standard
continuation-byte ranges excluding overlong forms and surrogates. -/
def isValidUtf8 : List Nat → Bool
  | [] => true
  | b0 :: rest =>
    if b0 < 0x80 then isValidUtf8 rest
    else if 0xC2 ≤ b0 ∧ b0 ≤ 0xDF then
      match rest with
      | b1 :: rest1 => decide (0x80 ≤ b1 ∧ b1 ≤ 0xBF) && isValidUtf8 rest1
      | [] => false
    else if 0xE0 ≤ b0 ∧ b0 ≤ 0xEF then
      match rest with
      | b1 :: b2 :: rest2 =>
        (if b0 = 0xE0 then decide (0xA0 ≤ b1 ∧ b1 ≤ 0xBF)
         else if b0 = 0xED then decide (0x80 ≤ b1 ∧ b1 ≤ 0x9F)
         else decide (0x80 ≤ b1 ∧ b1 ≤ 0xBF)) &&
        decide (0x80 ≤ b2 ∧ b2 ≤ 0xBF) && isValidUtf8 rest2
      | _ => false
    else if 0xF0 ≤ b0 ∧ b0 ≤ 0xF4 then
      match rest with
      | b1 :: b2 :: b3 :: rest3 =>
        (if b0 = 0xF0 then decide (0x90 ≤ b1 ∧ b1 ≤ 0xBF)
         else if b0 = 0xF4 then decide (0x80 ≤ b1 ∧ b1 ≤ 0x8F)
         else decide (0x80 ≤ b1 ∧ b1 ≤ 0xBF)) &&
        decide (0x80 ≤ b2 ∧ b2 ≤ 0xBF) &&
        decide (0x80 ≤ b3 ∧ b3 ≤ 0xBF) && isValidUtf8 rest3
      | _ => false
    else false

/-! ## Metadata decoder (src/src/types.rs `Metadata::try_from`) -/

/-- `bluez_async::uuid_from_u16`: promote a 16-bit UUID slot to the full
128-bit UUID `0000xxxx-0000-1000-8000-00805F9B34FB`, as big-endian bytes. -/
def uuidFromU16 (v : Nat) : List Nat :=
  [0, 0, v / 256 % 256, v % 256,
   0x00, 0x00, 0x10, 0x00, 0x80, 0x00, 0x00, 0x80, 0x5F, 0x9B, 0x34, 0xFB]

/-- Object metadata (src/src/types.rs `Metadata`). The `name` field keeps
the UTF-8 bytes of the Rust `String`; `type_` is the 16 big-endian UUID
bytes; `properties` is the `Property` bitset value. -/
structure Metadata where
  id : Option Nat
  name : List Nat
  type_ : List Nat
  current_size : Option Nat
  allocated_size : Option Nat
  first_created : Option DateTime
  last_modified : Option DateTime
  properties : Nat
  deriving DecidableEq, Repr

/-- `Metadata::try_from(&[u8])` (src/src/types.rs lines 728..841), the
decoder for one directory-entry body (the record without its two-byte
length prefix): fixed prefix of 6-byte id, name length, UTF-8 name and
directory-flag byte, then the type UUID (16 bytes if `TypeUuid128` else
2 bytes) and the optional fields in wire order. The source gates **both**
`first_created` and `last_modified` on the `HasFirstCreated` flag
(bit 3); the `HasLastModified` flag (bit 4) is never consulted. -/
def Metadata.tryFrom (raw : List Nat) : Except CoreError Metadata :=
  if raw.length < 11 then .error (.NotEnoughData raw.length 11) else
  let id := some (Ule48.toU64 (raw.take 6))
  match raw.drop 6 with
  | [] => .error (.NotEnoughData raw.length 11)
  | nameLen :: raw2 =>
    if raw2.length < nameLen + 1 + 2 then
      .error (.NotEnoughData raw2.length (nameLen + 1 + 2))
    else
      let name := raw2.take nameLen
      if ¬ isValidUtf8 name then .error .BadUtf8 else
      match raw2.drop nameLen with
      | [] => .error .BadUtf8
      | flags :: raw3 =>
        if flags &&& 0x40 ≠ 0 then .error (.InvalidDirFlags flags) else
        let wide := flags.testBit 0
        if wide ∧ raw3.length < 16 then .error (.NotEnoughData raw3.length 16) else
        let type_ := if wide then raw3.take 16 else uuidFromU16 (leBytes (raw3.take 2))
        let raw4 := if wide then raw3.drop 16 else raw3.drop 2
        if flags.testBit 1 ∧ raw4.length < 4 then
          .error (.NotEnoughData raw4.length 4)
        else
          let current_size := if flags.testBit 1 then some (leBytes (raw4.take 4)) else none
          let raw5 := if flags.testBit 1 then raw4.drop 4 else raw4
          if flags.testBit 2 ∧ raw5.length < 4 then
            .error (.NotEnoughData raw5.length 4)
          else
            let allocated_size := if flags.testBit 2 then some (leBytes (raw5.take 4)) else none
            let raw6 := if flags.testBit 2 then raw5.drop 4 else raw5
            if flags.testBit 3 ∧ raw6.length < 7 then
              .error (.NotEnoughData raw6.length 7)
            else
              let first_created := if flags.testBit 3 then some (DateTime.fromBytes7 (raw6.take 7)) else none
              let raw7 := if flags.testBit 3 then raw6.drop 7 else raw6
              if flags.testBit 3 ∧ raw7.length < 7 then
                .error (.NotEnoughData raw7.length 7)
              else
                let last_modified := if flags.testBit 3 then some (DateTime.fromBytes7 (raw7.take 7)) else none
                let raw8 := if flags.testBit 3 then raw7.drop 7 else raw7
                if flags.testBit 5 ∧ raw8.length < 4 then
                  .error (.NotEnoughData raw8.length 4)
                else
                  let propBits := leBytes (raw8.take 4)
                  if flags.testBit 5 ∧ propBits &&& 0xFFFFFF00 ≠ 0 then
                    .error (.InvalidProps propBits)
                  else
                    let properties := if flags.testBit 5 then propBits else 0
                    .ok { id, name, type_, current_size, allocated_size,
                          first_created, last_modified, properties }

/-! ## Directory-entry iterator (src/src/types.rs `DirEntries`) -/

/-- Iterator state over directory entries: the remaining bytes and the
fused `done` flag. -/
structure DirEntries where
  raw : List Nat
  done : Bool
  deriving DecidableEq, Repr

/-- Result of `DirEntries::split_dir_entry`. `panic` models the
out-of-bounds slice `&rec[2..]` the source takes when `record_len < 2`. -/
inductive SplitResult where
  | empty
  | panic
  | err (e : CoreError)
  | entry (fst rst : List Nat)
  deriving DecidableEq, Repr

/-- `DirEntries::split_dir_entry` (src/src/types.rs lines 663..684):
empty input ends the sequence; fewer than 13 bytes is
`NotEnoughData{needed: 13}`; a leading little-endian `u16` `record_len`
larger than the buffer is `NotEnoughData{needed: record_len}`; otherwise
the record body (without the length prefix) and the remainder are split
off. -/
def DirEntries.splitDirEntry (raw : List Nat) : SplitResult :=
  if raw.isEmpty then .empty
  else if raw.length < 13 then .err (.NotEnoughData raw.length 13)
  else
    let recordLen := leBytes (raw.take 2)
    if raw.length < recordLen then .err (.NotEnoughData raw.length recordLen)
    else if recordLen < 2 then .panic
    else .entry ((raw.take recordLen).drop 2) (raw.drop recordLen)

/-- One step of `Iterator::next` for `DirEntries`. -/
inductive NextResult where
  | stop
  | panicked
  | item (x : Except CoreError Metadata)
  deriving Repr

/-- `<DirEntries as Iterator>::next` (src/src/types.rs lines 698..726):
when `done` nothing is produced; otherwise the next record is split off
and its body decoded, advancing the state; splitting errors are yielded
once and set `done`; the end of input sets `done`. -/
def DirEntries.next (s : DirEntries) : NextResult × DirEntries :=
  if s.done then (.stop, s)
  else
    match DirEntries.splitDirEntry s.raw with
    | .entry fst rst => (.item (Metadata.tryFrom fst), ⟨rst, rst.isEmpty⟩)
    | .empty => (.stop, ⟨s.raw, true⟩)
    | .err e => (.item (.error e), ⟨s.raw, true⟩)
    | .panic => (.panicked, s)

/-! ## Request encoders (src/src/types.rs `From<&ListReq>`/`From<&ActionReq>`) -/

/-- Object list sort order (src/src/types.rs `SortOrder`). -/
inductive SortOrder where
  | NameAsc
  | TypeAsc
  | CurSizeAsc
  | CrtTimeAsc
  | ModTimeAsc
  | NameDesc
  | TypeDesc
  | CurSizeDesc
  | CrtTimeDesc
  | ModTimeDesc
  deriving DecidableEq, Repr

/-- The wire byte of a sort order. -/
def SortOrder.toCode : SortOrder → Nat
  | .NameAsc => 0x01
  | .TypeAsc => 0x02
  | .CurSizeAsc => 0x03
  | .CrtTimeAsc => 0x04
  | .ModTimeAsc => 0x05
  | .NameDesc => 0x11
  | .TypeDesc => 0x12
  | .CurSizeDesc => 0x13
  | .CrtTimeDesc => 0x14
  | .ModTimeDesc => 0x15

/-- Object list control point request (src/src/types.rs `ListReq`). -/
inductive ListReq where
  | First
  | Last
  | Previous
  | Next
  | GoTo (id : Nat)
  | Order (order : SortOrder)
  | NumberOf
  | ClearMark
  deriving DecidableEq, Repr

/-- `From<&ListReq> for Vec<u8>`: opcode byte plus parameters
(`GoTo` carries `id.to_le_bytes()[..6]`). -/
def ListReq.toBytes : ListReq → List Nat
  | .First => [0x01]
  | .Last => [0x02]
  | .Previous => [0x03]
  | .Next => [0x04]
  | .GoTo id => 0x05 :: toLeBytes id 6
  | .Order order => [0x06, order.toCode]
  | .NumberOf => [0x07]
  | .ClearMark => [0x08]

/-- Object action control point request (src/src/types.rs `ActionReq`),
with the `Uuid` parameter as its 16 serialized bytes and the `WriteMode`
bitset as its byte. -/
inductive ActionReq where
  | Create (size : Nat) (type_ : List Nat)
  | Delete
  | CheckSum (offset length : Nat)
  | Execute (param : List Nat)
  | Read (offset length : Nat)
  | Write (offset length mode : Nat)
  | Abort
  deriving DecidableEq, Repr

/-- `From<&ActionReq> for Vec<u8>`: opcode byte plus parameters; size,
offset and length serialize as `to_le_bytes()[..4]`; `Create` appends the
full 16-byte UUID. -/
def ActionReq.toBytes : ActionReq → List Nat
  | .Create size type_ => 0x01 :: (toLeBytes size 4 ++ type_)
  | .Delete => [0x02]
  | .CheckSum offset length => 0x03 :: (toLeBytes offset 4 ++ toLeBytes length 4)
  | .Execute param => 0x04 :: param
  | .Read offset length => 0x05 :: (toLeBytes offset 4 ++ toLeBytes length 4)
  | .Write offset length mode => 0x06 :: (toLeBytes offset 4 ++ toLeBytes length 4 ++ [mode])
  | .Abort => [0x07]

/-! ## Client façade (src/bluez-async-ots/src/lib.rs `OtsClient`) -/

/-- Control-point characteristic identities the modelled commands touch. -/
inductive Chr where
  | oacp
  | olcp
  deriving DecidableEq, Repr

/-- One observable GATT wire interaction of a control-point transaction. -/
inductive WireEvent where
  | startNotify (chr : Chr)
  | writeChar (chr : Chr) (value : List Nat)
  | stopNotify (chr : Chr)
  deriving DecidableEq, Repr

namespace Client

/-- OTS client error (src/bluez-async-ots/src/lib.rs `Error`). External
I/O and Bluetooth error payloads are modelled as opaque numeric codes. -/
inductive Error where
  | Io (code : Nat)
  | Bt (code : Nat)
  | Core (e : CoreError)
  | NotSupported
  | NotFound
  | NoResponse
  | BadResponse
  | Timeout
  deriving DecidableEq, Repr

end Client

/-- The external world of one control-point transaction: given the target
characteristic and the request bytes written to it, the notified response
bytes, or the engine error (`NoResponse` on timeout, a Bluetooth error,
…) the transaction fails with. -/
structure Env where
  response : Chr → List Nat → Except Client.Error (List Nat)

/-- OTS client state relevant to command dispatch: the two feature
bitsets read from the OTS Feature characteristic at construction and
whether the optional OLCP characteristic was resolved. -/
structure OtsClient where
  actionFeatures : Nat
  listFeatures : Nat
  olcpPresent : Bool
  deriving DecidableEq, Repr

namespace OtsClient

/-- `OtsClient::request` (src/bluez-async-ots/src/lib.rs lines 620..666):
start notifications, write the request to the characteristic, await the
matching value notification, stop notifications. The wire interactions
are returned as a trace; on a failed exchange `stop_notify` is skipped by
the early return. -/
def request (env : Env) (chr : Chr) (req : List Nat) :
    List WireEvent × Except Client.Error (List Nat) :=
  match env.response chr req with
  | .ok res => ([.startNotify chr, .writeChar chr req, .stopNotify chr], .ok res)
  | .error e => ([.startNotify chr, .writeChar chr req], .error e)

/-- Generated `action_request` (the `impl_fns!` expansion): encode the
request, run the transaction on the OACP characteristic, decode the
response. -/
def action_request (_c : OtsClient) (env : Env) (req : ActionReq) :
    List WireEvent × Except Client.Error ActionRes :=
  match request env .oacp req.toBytes with
  | (tr, .ok res) =>
    match ActionRes.tryFrom res with
    | .ok r => (tr, .ok r)
    | .error e => (tr, .error (.Core e))
  | (tr, .error e) => (tr, .error e)

/-- Generated `list_request`: as `action_request` but on the optional
OLCP characteristic; an absent characteristic is refused locally with
`NotSupported` before any wire interaction. -/
def list_request (c : OtsClient) (env : Env) (req : ListReq) :
    List WireEvent × Except Client.Error ListRes :=
  if c.olcpPresent then
    match request env .olcp req.toBytes with
    | (tr, .ok res) =>
      match ListRes.tryFrom res with
      | .ok r => (tr, .ok r)
      | .error e => (tr, .error (.Core e))
    | (tr, .error e) => (tr, .error e)
  else ([], .error .NotSupported)

/-! The fifteen command methods generated by `impl_fns!`
(src/bluez-async-ots/src/lib.rs lines 668..748). Each checks its feature
bit — `ActionFeature`: Create=0, Delete=1, CheckSum=2, Execute=3, Read=4,
Write=5, Abort=9; `ListFeature`: GoTo=0, Order=1, NumberOf=2, ClearMark=3
— before issuing the transaction, and demands the declared response
variant, turning any other into `BadResponse`. -/

/-- Generated `create`. -/
def create (c : OtsClient) (env : Env) (size : Nat) (type_ : List Nat) :
    List WireEvent × Except Client.Error Unit :=
  if ¬ c.actionFeatures.testBit 0 then ([], .error .NotSupported)
  else match c.action_request env (.Create size type_) with
  | (tr, .ok .None) => (tr, .ok ())
  | (tr, .ok _) => (tr, .error .BadResponse)
  | (tr, .error e) => (tr, .error e)

/-- Generated `delete`. -/
def delete (c : OtsClient) (env : Env) :
    List WireEvent × Except Client.Error Unit :=
  if ¬ c.actionFeatures.testBit 1 then ([], .error .NotSupported)
  else match c.action_request env .Delete with
  | (tr, .ok .None) => (tr, .ok ())
  | (tr, .ok _) => (tr, .error .BadResponse)
  | (tr, .error e) => (tr, .error e)

/-- Generated `check_sum`. -/
def check_sum (c : OtsClient) (env : Env) (offset length : Nat) :
    List WireEvent × Except Client.Error Nat :=
  if ¬ c.actionFeatures.testBit 2 then ([], .error .NotSupported)
  else match c.action_request env (.CheckSum offset length) with
  | (tr, .ok (.CheckSum value)) => (tr, .ok value)
  | (tr, .ok _) => (tr, .error .BadResponse)
  | (tr, .error e) => (tr, .error e)

/-- Generated `execute`. -/
def execute (c : OtsClient) (env : Env) (param : List Nat) :
    List WireEvent × Except Client.Error (List Nat) :=
  if ¬ c.actionFeatures.testBit 3 then ([], .error .NotSupported)
  else match c.action_request env (.Execute param) with
  | (tr, .ok (.Execute out)) => (tr, .ok out)
  | (tr, .ok _) => (tr, .error .BadResponse)
  | (tr, .error e) => (tr, .error e)

/-- Generated `do_read`. -/
def do_read (c : OtsClient) (env : Env) (offset length : Nat) :
    List WireEvent × Except Client.Error Unit :=
  if ¬ c.actionFeatures.testBit 4 then ([], .error .NotSupported)
  else match c.action_request env (.Read offset length) with
  | (tr, .ok .None) => (tr, .ok ())
  | (tr, .ok _) => (tr, .error .BadResponse)
  | (tr, .error e) => (tr, .error e)

/-- Generated `do_write`. -/
def do_write (c : OtsClient) (env : Env) (offset length mode : Nat) :
    List WireEvent × Except Client.Error Unit :=
  if ¬ c.actionFeatures.testBit 5 then ([], .error .NotSupported)
  else match c.action_request env (.Write offset length mode) with
  | (tr, .ok .None) => (tr, .ok ())
  | (tr, .ok _) => (tr, .error .BadResponse)
  | (tr, .error e) => (tr, .error e)

/-- Generated `abort`. -/
def abort (c : OtsClient) (env : Env) :
    List WireEvent × Except Client.Error Unit :=
  if ¬ c.actionFeatures.testBit 9 then ([], .error .NotSupported)
  else match c.action_request env .Abort with
  | (tr, .ok .None) => (tr, .ok ())
  | (tr, .ok _) => (tr, .error .BadResponse)
  | (tr, .error e) => (tr, .error e)

/-- Generated `first` (no feature gate). -/
def first (c : OtsClient) (env : Env) :
    List WireEvent × Except Client.Error Unit :=
  match c.list_request env .First with
  | (tr, .ok .None) => (tr, .ok ())
  | (tr, .ok _) => (tr, .error .BadResponse)
  | (tr, .error e) => (tr, .error e)

/-- Generated `last` (no feature gate). -/
def last (c : OtsClient) (env : Env) :
    List WireEvent × Except Client.Error Unit :=
  match c.list_request env .Last with
  | (tr, .ok .None) => (tr, .ok ())
  | (tr, .ok _) => (tr, .error .BadResponse)
  | (tr, .error e) => (tr, .error e)

/-- Generated `do_previous` (no feature gate). -/
def do_previous (c : OtsClient) (env : Env) :
    List WireEvent × Except Client.Error Unit :=
  match c.list_request env .Previous with
  | (tr, .ok .None) => (tr, .ok ())
  | (tr, .ok _) => (tr, .error .BadResponse)
  | (tr, .error e) => (tr, .error e)

/-- Generated `do_next` (no feature gate). -/
def do_next (c : OtsClient) (env : Env) :
    List WireEvent × Except Client.Error Unit :=
  match c.list_request env .Next with
  | (tr, .ok .None) => (tr, .ok ())
  | (tr, .ok _) => (tr, .error .BadResponse)
  | (tr, .error e) => (tr, .error e)

/-- Generated `do_go_to`, gated on `ListFeature::GoTo`. -/
def do_go_to (c : OtsClient) (env : Env) (id : Nat) :
    List WireEvent × Except Client.Error Unit :=
  if ¬ c.listFeatures.testBit 0 then ([], .error .NotSupported)
  else match c.list_request env (.GoTo id) with
  | (tr, .ok .None) => (tr, .ok ())
  | (tr, .ok _) => (tr, .error .BadResponse)
  | (tr, .error e) => (tr, .error e)

/-- Generated `order`, gated on `ListFeature::Order`. -/
def order (c : OtsClient) (env : Env) (o : SortOrder) :
    List WireEvent × Except Client.Error Unit :=
  if ¬ c.listFeatures.testBit 1 then ([], .error .NotSupported)
  else match c.list_request env (.Order o) with
  | (tr, .ok .None) => (tr, .ok ())
  | (tr, .ok _) => (tr, .error .BadResponse)
  | (tr, .error e) => (tr, .error e)

/-- Generated `number_of`, gated on `ListFeature::NumberOf`. -/
def number_of (c : OtsClient) (env : Env) :
    List WireEvent × Except Client.Error Nat :=
  if ¬ c.listFeatures.testBit 2 then ([], .error .NotSupported)
  else match c.list_request env .NumberOf with
  | (tr, .ok (.NumberOf count)) => (tr, .ok count)
  | (tr, .ok _) => (tr, .error .BadResponse)
  | (tr, .error e) => (tr, .error e)

/-- Generated `clear_mark`, gated on `ListFeature::ClearMark`. -/
def clear_mark (c : OtsClient) (env : Env) :
    List WireEvent × Except Client.Error Unit :=
  if ¬ c.listFeatures.testBit 3 then ([], .error .NotSupported)
  else match c.list_request env .ClearMark with
  | (tr, .ok .None) => (tr, .ok ())
  | (tr, .ok _) => (tr, .error .BadResponse)
  | (tr, .error e) => (tr, .error e)

/-- `OtsClient::previous` (src/bluez-async-ots/src/lib.rs lines 461..470):
`Ok(true)` on success, `Ok(false)` on the OLCP `OutOfBounds` list error,
every other error unchanged. -/
def previous (c : OtsClient) (env : Env) :
    List WireEvent × Except Client.Error Bool :=
  match c.do_previous env with
  | (tr, .ok _) => (tr, .ok true)
  | (tr, .error (.Core (.ListError .OutOfBounds))) => (tr, .ok false)
  | (tr, .error e) => (tr, .error e)

/-- `OtsClient::next` (lines 472..481): like `previous`. -/
def next (c : OtsClient) (env : Env) :
    List WireEvent × Except Client.Error Bool :=
  match c.do_next env with
  | (tr, .ok _) => (tr, .ok true)
  | (tr, .error (.Core (.ListError .OutOfBounds))) => (tr, .ok false)
  | (tr, .error e) => (tr, .error e)

/-- `OtsClient::go_to` (lines 483..492): `Ok(true)` on success,
`Ok(false)` on the OLCP `ObjectIdNotFound` list error, every other error
unchanged. -/
def go_to (c : OtsClient) (env : Env) (id : Nat) :
    List WireEvent × Except Client.Error Bool :=
  match c.do_go_to env id with
  | (tr, .ok _) => (tr, .ok true)
  | (tr, .error (.Core (.ListError .ObjectIdNotFound))) => (tr, .ok false)
  | (tr, .error e) => (tr, .error e)

end OtsClient

/-! ## Bulk-transfer effective lengths (src/bluez-async-ots/src/lib.rs) -/

/-- Rust unsigned subtraction `a - b` as written in the source, which has
a defined result only when it does not underflow; `none` models the
arithmetic-overflow panic of an underflowing `usize` subtraction. -/
def checkedSub (a b : Nat) : Option Nat :=
  if b ≤ a then some (a - b) else none

/-- Payload length of `OtsClient::read` (lines 523..543): the requested
length as given, or the full current size when absent; the buffer is
sized to it and `read_exact` consumes exactly that many bytes. No
clamping against `size - offset` is performed and `offset` is not
consulted. -/
def readLength (current : Nat) (length : Option Nat) : Nat :=
  length.getD current

/-- Payload length of `OtsClient::read_to` (lines 546..559):
`buffer.len().min(size - offset)` with `size` the current size. -/
def readToLength (current offset bufLen : Nat) : Option Nat :=
  (checkedSub current offset).map fun avail => min bufLen avail

/-- Payload length of `OtsClient::read_stream` (lines 562..569):
`length.unwrap_or(size).min(size - offset)` with `size` the current
size. -/
def readStreamLength (current offset : Nat) (length : Option Nat) : Option Nat :=
  (checkedSub current offset).map fun avail => min (length.getD current) avail

/-- Payload length of `OtsClient::write` (lines 582..595):
`buffer.len().min(size - offset)` with `size` the allocated size. -/
def writeLength (allocated offset bufLen : Nat) : Option Nat :=
  (checkedSub allocated offset).map fun avail => min bufLen avail

/-- Payload length of `OtsClient::write_stream` (lines 598..610):
`length.unwrap_or(size).min(size - offset)` with `size` the allocated
size. -/
def writeStreamLength (allocated offset : Nat) (length : Option Nat) : Option Nat :=
  (checkedSub allocated offset).map fun avail => min (length.getD allocated) avail

/-! ## Metadata getter composition (src/bluez-async-ots/src/lib.rs
`OtsClient::metadata`, lines 435..459) -/

/-- Object sizes (`Sizes { current, allocated }`). -/
structure Sizes where
  current : Nat
  allocated : Nat
  deriving DecidableEq, Repr

/-- Outcomes of the seven per-object getters `metadata` composes. Each
getter performs its own GATT read and decoding; `metadata` only combines
their results, so they are abstracted as given outcomes. -/
structure GetterEnv where
  idRes : Except Client.Error (Option Nat)
  nameRes : Except Client.Error (List Nat)
  typeRes : Except Client.Error (List Nat)
  sizeRes : Except Client.Error Sizes
  crtRes : Except Client.Error (Option DateTime)
  modRes : Except Client.Error (Option DateTime)
  propRes : Except Client.Error Nat

/-- `OtsClient::metadata`: queries id, name and type (each `?`), degrades
a failed `size` to both size fields absent, queries the two timestamps
(each `?`), and degrades a failed `properties` to the empty flag set. -/
def OtsClient.metadata (g : GetterEnv) : Except Client.Error Metadata := do
  let id ← g.idRes
  let name ← g.nameRes
  let type_ ← g.typeRes
  let (current_size, allocated_size) :=
    match g.sizeRes with
    | .ok size => (some size.current, some size.allocated)
    | .error _ => (none, none)
  let first_created ← g.crtRes
  let last_modified ← g.modRes
  let properties := match g.propRes with | .ok p => p | .error _ => 0
  return { id, name, type_, current_size, allocated_size,
           first_created, last_modified, properties }

/-! ## Claim theorems -/

/-- Auxiliary round-trip: a value below `256 ^ n` survives decomposition
into its `n` little-endian bytes and little-endian recomposition. -/
theorem leBytes_toLeBytes : ∀ (n v : Nat), v < 256 ^ n → leBytes (toLeBytes v n) = v := by
  intro n
  induction n with
  | zero => intro v hv; interval_cases v; rfl
  | succ n ih =>
    intro v hv
    have h2 : v / 256 < 256 ^ n := by
      rw [Nat.div_lt_iff_lt_mul (by norm_num)]
      calc v < 256 ^ (n + 1) := hv
        _ = 256 ^ n * 256 := by ring
    simp [toLeBytes, leBytes, ih _ h2]
    omega

/-- C8: for every 64-bit value `v < 2^48`, encoding `v` as the 6-byte
little-endian `Ule48` identifier and decoding it back to `u64` yields `v`
(`decode48(encode48(v)) == v`). -/
theorem ule48_roundtrip (v : Nat) (h : v < 2 ^ 48) : Ule48.toU64 (Ule48.fromU64 v) = v := by
  have : v < 256 ^ 6 := by norm_num at h ⊢; omega
  exact leBytes_toLeBytes 6 v this

/-- C8 witness: the round-trip evaluated at the largest 48-bit value. -/
theorem ule48_roundtrip_witness :
    281474976710655 < 2 ^ 48 ∧ Ule48.toU64 (Ule48.fromU64 281474976710655) = 281474976710655 :=
  ⟨by norm_num, ule48_roundtrip 281474976710655 (by norm_num)⟩

/-- C1: the `Metadata` decoder gates **both** optional timestamps on
`HasFirstCreated` (bit 3), never consulting `HasLastModified` (bit 4).
First conjunct: an entry body whose flags set only `HasLastModified`
(0x10) and that carries a 7-byte timestamp decodes with `last_modified`
(and `first_created`) absent, against the claimed gating. Second
conjunct: an entry body whose flags set only `HasFirstCreated` (0x08)
and carries two 7-byte timestamps decodes with `last_modified` present,
copied from the second timestamp, although `HasLastModified` is clear. -/
theorem metadata_last_modified_gating :
    Metadata.tryFrom [1,0,0,0,0,0, 0, 0x10, 0x24,0x25, 0xE7,7,1,2,3,4,5] =
      .ok { id := some 1, name := [], type_ := uuidFromU16 0x2524,
            current_size := none, allocated_size := none,
            first_created := none, last_modified := none, properties := 0 } ∧
    Metadata.tryFrom [1,0,0,0,0,0, 0, 0x08, 0x24,0x25, 0xE7,7,1,2,3,4,5, 0xE8,7,6,7,8,9,10] =
      .ok { id := some 1, name := [], type_ := uuidFromU16 0x2524,
            current_size := none, allocated_size := none,
            first_created := some ⟨2023, 1, 2, 3, 4, 5⟩,
            last_modified := some ⟨2024, 6, 7, 8, 9, 10⟩, properties := 0 } := by
  constructor <;> rfl

/-- C3: the current `ListRes` decoder takes the OLCP NumberOf count from
bytes 3..7 (after response marker, echoed opcode and result code), so
`70 07 01 2A 00 00 00` decodes to 42; the earlier-snapshot `OlcpRes`
decoder instead reads the four bytes starting at index 2 and decodes the
same buffer to 0x2A01 = 10753. -/
theorem numberof_count_offset :
    (∀ b3 b4 b5 b6 (rest : List Nat),
       ListRes.tryFrom (0x70 :: 0x07 :: 0x01 :: b3 :: b4 :: b5 :: b6 :: rest) =
         .ok (.NumberOf (le32 b3 b4 b5 b6))) ∧
    ListRes.tryFrom [0x70, 0x07, 0x01, 0x2A, 0, 0, 0] = .ok (.NumberOf 42) ∧
    OlcpRes.tryFrom [0x70, 0x07, 0x01, 0x2A, 0, 0, 0] = some (.ok (.NumberOf 10753)) :=
  ⟨fun _ _ _ _ _ => rfl, rfl, rfl⟩

/-- C2 counterexample: `read` with current size 4, offset 1 and an
explicit requested length of 5 transfers 5 bytes, not the claimed
`min(requested, size - offset) = 3`; the requested length is used
unclamped (and independently of the offset). -/
theorem read_length_unclamped_cex :
    readLength 4 (some 5) = 5 ∧ min 5 (4 - 1) = 3 ∧ readLength 4 (some 5) ≠ min 5 (4 - 1) := by
  decide

/-- C2 (amended): under `offset ≤ size`, the payload length of `read_to`,
`read_stream`, `write` and `write_stream` equals
`min(requested_or_full, size - offset)` (current size for reads,
allocated for writes); `read` instead transfers exactly the requested
length, or the full current size when no length is given, with no
clamping. -/
theorem bulk_transfer_lengths (current allocated offset bufLen : Nat) (req : Option Nat)
    (hr : offset ≤ current) (hw : offset ≤ allocated) :
    readToLength current offset bufLen = some (min bufLen (current - offset)) ∧
    readStreamLength current offset req = some (min (req.getD current) (current - offset)) ∧
    writeLength allocated offset bufLen = some (min bufLen (allocated - offset)) ∧
    writeStreamLength allocated offset req = some (min (req.getD allocated) (allocated - offset)) ∧
    readLength current req = req.getD current := by
  simp [readToLength, readStreamLength, writeLength, writeStreamLength, readLength, checkedSub,
    hr, hw]

/-- C2 witness: the clamped lengths at current size 10, allocated 20,
offset 2, and the unclamped `read` length. -/
theorem bulk_transfer_lengths_witness :
    2 ≤ 10 ∧ 2 ≤ 20 ∧
    readToLength 10 2 5 = some 5 ∧
    readStreamLength 10 2 (some 100) = some 8 ∧
    writeLength 20 2 30 = some 18 ∧
    writeStreamLength 20 2 none = some 18 ∧
    readLength 10 (some 100) = 100 := by
  have h := bulk_transfer_lengths 10 20 2 5 (some 100) (by decide) (by decide)
  have h2 := bulk_transfer_lengths 10 20 2 30 none (by decide) (by decide)
  exact ⟨by decide, by decide, h.1, by simpa using h.2.1, by simpa using h2.2.2.1,
    by simpa using h2.2.2.2.1, by simpa using h.2.2.2.2⟩

/-- C10: the bulk-transfer length computations of `read_to`,
`read_stream`, `write` and `write_stream` carry the implicit
precondition `offset ≤ size` (current for reads, allocated for writes):
under it the unguarded `size - offset` subtraction is defined and no
error branch is taken, while for `offset` beyond the size the
subtraction underflows (`none` models the resulting panic — there is no
error return). -/
theorem bulk_offset_precondition (current allocated offset bufLen : Nat) (req : Option Nat) :
    (offset ≤ current →
      (readToLength current offset bufLen).isSome ∧ (readStreamLength current offset req).isSome) ∧
    (offset ≤ allocated →
      (writeLength allocated offset bufLen).isSome ∧ (writeStreamLength allocated offset req).isSome) ∧
    (current < offset →
      readToLength current offset bufLen = none ∧ readStreamLength current offset req = none) ∧
    (allocated < offset →
      writeLength allocated offset bufLen = none ∧ writeStreamLength allocated offset req = none) := by
  refine ⟨fun h => ?_, fun h => ?_, fun h => ?_, fun h => ?_⟩ <;>
    simp [readToLength, readStreamLength, writeLength, writeStreamLength, checkedSub, h,
      Nat.not_le.mpr, Nat.not_le_of_lt]

/-- C10 witness: at size 10, offset 3 is defined and offset 12 underflows. -/
theorem bulk_offset_precondition_witness :
    (3 ≤ 10 ∧ (readToLength 10 3 4).isSome) ∧ (10 < 12 ∧ readToLength 10 12 4 = none) := by
  have h := bulk_offset_precondition 10 10 3 4 none
  have h2 := bulk_offset_precondition 10 10 12 4 none
  exact ⟨⟨by decide, (h.1 (by decide)).1⟩, ⟨by decide, (h2.2.2.1 (by decide)).1⟩⟩

/-- C9: `metadata` composes the getters so that a failed `size` getter
degrades both size fields to absent rather than failing the call, a
failed `properties` getter degrades to the empty flag set, and an error
from the `id`, `name`, `type`, `first_created` or `last_modified` getter
propagates and fails the whole call. -/
theorem metadata_getter_composition :
    (∀ (idv : Option Nat) (namev typev : List Nat) (fcv lmv : Option DateTime) (pv : Nat)
       (e : Client.Error),
       OtsClient.metadata ⟨.ok idv, .ok namev, .ok typev, .error e, .ok fcv, .ok lmv, .ok pv⟩ =
         .ok ⟨idv, namev, typev, none, none, fcv, lmv, pv⟩) ∧
    (∀ (idv : Option Nat) (namev typev : List Nat) (cur alloc : Nat) (fcv lmv : Option DateTime)
       (e : Client.Error),
       OtsClient.metadata ⟨.ok idv, .ok namev, .ok typev, .ok ⟨cur, alloc⟩, .ok fcv, .ok lmv,
           .error e⟩ =
         .ok ⟨idv, namev, typev, some cur, some alloc, fcv, lmv, 0⟩) ∧
    (∀ (g : GetterEnv) (e : Client.Error), g.idRes = .error e →
       OtsClient.metadata g = .error e) ∧
    (∀ (g : GetterEnv) (v : Option Nat) (e : Client.Error),
       g.idRes = .ok v → g.nameRes = .error e → OtsClient.metadata g = .error e) ∧
    (∀ (g : GetterEnv) (v1 : Option Nat) (v2 : List Nat) (e : Client.Error),
       g.idRes = .ok v1 → g.nameRes = .ok v2 → g.typeRes = .error e →
       OtsClient.metadata g = .error e) ∧
    (∀ (g : GetterEnv) (v1 : Option Nat) (v2 v3 : List Nat) (e : Client.Error),
       g.idRes = .ok v1 → g.nameRes = .ok v2 → g.typeRes = .ok v3 → g.crtRes = .error e →
       OtsClient.metadata g = .error e) ∧
    (∀ (g : GetterEnv) (v1 : Option Nat) (v2 v3 : List Nat) (v4 : Option DateTime)
       (e : Client.Error),
       g.idRes = .ok v1 → g.nameRes = .ok v2 → g.typeRes = .ok v3 → g.crtRes = .ok v4 →
       g.modRes = .error e → OtsClient.metadata g = .error e) := by
  refine ⟨fun idv namev typev fcv lmv pv e => rfl,
          fun idv namev typev cur alloc fcv lmv e => rfl,
          fun g e h1 => ?_, fun g v e h1 h2 => ?_, fun g v1 v2 e h1 h2 h3 => ?_,
          fun g v1 v2 v3 e h1 h2 h3 h4 => ?_, fun g v1 v2 v3 v4 e h1 h2 h3 h4 h5 => ?_⟩ <;>
    (simp only [OtsClient.metadata, *]; rfl)

/-- C9 witness: a failed size getter degrades to absent sizes; a failed
id getter fails the call. -/
theorem metadata_getter_composition_witness :
    OtsClient.metadata ⟨.ok (some 1), .ok [], .ok [], .error .Timeout, .ok none, .ok none,
        .ok 3⟩ =
      .ok ⟨some 1, [], [], none, none, none, none, 3⟩ ∧
    (⟨.error .Timeout, .ok [], .ok [], .ok ⟨1, 2⟩, .ok none, .ok none, .ok 3⟩ :
        GetterEnv).idRes = .error .Timeout ∧
    OtsClient.metadata ⟨.error .Timeout, .ok [], .ok [], .ok ⟨1, 2⟩, .ok none, .ok none, .ok 3⟩ =
      .error .Timeout :=
  ⟨(metadata_getter_composition).1 (some 1) [] [] none none 3 .Timeout, rfl,
   (metadata_getter_composition).2.2.1 _ .Timeout rfl⟩

/-- C6: both control-point response decoders reject a buffer shorter
than 3 bytes with `NotEnoughData{needed: 3}`; a buffer of at least
3 bytes whose first byte is a valid opcode other than the response
marker (0x70 list, 0x60 action) is `BadResponse`; and with the
response marker present, a valid non-`Success` result-code byte becomes
`ListError(rc)` respectively `ActionError(rc)` carrying that code. -/
theorem response_decoder_errors :
    (∀ raw : List Nat, raw.length < 3 →
       ListRes.tryFrom raw = .error (.NotEnoughData raw.length 3)) ∧
    (∀ raw : List Nat, raw.length < 3 →
       ActionRes.tryFrom raw = .error (.NotEnoughData raw.length 3)) ∧
    (∀ (b0 b1 b2 : Nat) (rest : List Nat) (op : ListOp),
       ListOp.tryFrom b0 = .ok op → op ≠ .Response →
       ListRes.tryFrom (b0 :: b1 :: b2 :: rest) = .error .BadResponse) ∧
    (∀ (b0 b1 b2 : Nat) (rest : List Nat) (op : ActionOp),
       ActionOp.tryFrom b0 = .ok op → op ≠ .Response →
       ActionRes.tryFrom (b0 :: b1 :: b2 :: rest) = .error .BadResponse) ∧
    (∀ (b1 b2 : Nat) (rest : List Nat) (rc : ListRc),
       ListRc.tryFrom b2 = .ok rc → rc ≠ .Success →
       ListRes.tryFrom (0x70 :: b1 :: b2 :: rest) = .error (.ListError rc)) ∧
    (∀ (b1 b2 : Nat) (rest : List Nat) (rc : ActionRc),
       ActionRc.tryFrom b2 = .ok rc → rc ≠ .Success →
       ActionRes.tryFrom (0x60 :: b1 :: b2 :: rest) = .error (.ActionError rc)) := by
  refine ⟨fun raw h => ?_, fun raw h => ?_,
          fun b0 b1 b2 rest op hop hne => ?_, fun b0 b1 b2 rest op hop hne => ?_,
          fun b1 b2 rest rc hrc hne => ?_, fun b1 b2 rest rc hrc hne => ?_⟩
  · rcases raw with _ | ⟨a, _ | ⟨b, _ | ⟨c, t⟩⟩⟩ <;> first | rfl | (simp at h; omega)
  · rcases raw with _ | ⟨a, _ | ⟨b, _ | ⟨c, t⟩⟩⟩ <;> first | rfl | (simp at h; omega)
  · simp [ListRes.tryFrom, hop, hne]
  · simp [ActionRes.tryFrom, hop, hne]
  · rw [show ListRes.tryFrom (0x70 :: b1 :: b2 :: rest) =
        (match ListRc.tryFrom b2 with
         | .error e => .error e
         | .ok .Success =>
           match ListOp.tryFrom b1 with
           | .error e => .error e
           | .ok .NumberOf =>
             match rest with
             | b3 :: b4 :: b5 :: b6 :: _ => .ok (.NumberOf (le32 b3 b4 b5 b6))
             | _ => .error (.NotEnoughData (rest.length + 3) 77)
           | .ok _ => .ok .None
         | .ok rc => .error (.ListError rc)) from rfl, hrc]
    cases rc <;> simp_all
  · rw [show ActionRes.tryFrom (0x60 :: b1 :: b2 :: rest) =
        (match ActionRc.tryFrom b2 with
         | .error e => .error e
         | .ok .Success =>
           match ActionOp.tryFrom b1 with
           | .error e => .error e
           | .ok .CheckSum =>
             match rest with
             | b3 :: b4 :: b5 :: b6 :: _ => .ok (.CheckSum (le32 b3 b4 b5 b6))
             | _ => .error (.NotEnoughData (rest.length + 3) 7)
           | .ok .Execute => .ok (.Execute rest)
           | .ok _ => .ok .None
         | .ok rc => .error (.ActionError rc)) from rfl, hrc]
    cases rc <;> simp_all

/-- C6 witness: a 2-byte buffer, a valid non-marker first byte, and
valid non-success result codes, each at concrete bytes. -/
theorem response_decoder_errors_witness :
    ([0x70, 0x01] : List Nat).length < 3 ∧
    ListRes.tryFrom [0x70, 0x01] = .error (.NotEnoughData 2 3) ∧
    ListOp.tryFrom 0x01 = .ok ListOp.First ∧
    ListRes.tryFrom [0x01, 0x00, 0x02] = .error .BadResponse ∧
    ListRc.tryFrom 0x05 = .ok .OutOfBounds ∧
    ListRes.tryFrom [0x70, 0x03, 0x05] = .error (.ListError .OutOfBounds) ∧
    ActionRc.tryFrom 0x09 = .ok .ObjectLocked ∧
    ActionRes.tryFrom [0x60, 0x02, 0x09] = .error (.ActionError .ObjectLocked) :=
  ⟨by decide, response_decoder_errors.1 [0x70, 0x01] (by decide), rfl,
   response_decoder_errors.2.2.1  0x01 0x00 0x02 [] .First rfl (by decide),
   rfl,
   response_decoder_errors.2.2.2.2.1 0x03 0x05 [] .OutOfBounds rfl (by decide),
   rfl,
   response_decoder_errors.2.2.2.2.2 0x02 0x09 [] .ObjectLocked rfl (by decide)⟩

/-- C7 counterexample: the iterator is not fused after yielding an
error. A 26-byte input of two identical 13-byte records whose bodies
carry the invalid directory-flag byte 0x40 yields an error item on the
first `next` with `done` still false, and the second `next` yields
another error item instead of nothing. -/
theorem direntries_decode_error_not_fused :
    DirEntries.next ⟨[13,0, 1,0,0,0,0,0, 0, 0x40, 0x24,0x25, 0,
                      13,0, 1,0,0,0,0,0, 0, 0x40, 0x24,0x25, 0], false⟩ =
      (.item (.error (.InvalidDirFlags 0x40)),
       ⟨[13,0, 1,0,0,0,0,0, 0, 0x40, 0x24,0x25, 0], false⟩) ∧
    DirEntries.next ⟨[13,0, 1,0,0,0,0,0, 0, 0x40, 0x24,0x25, 0], false⟩ =
      (.item (.error (.InvalidDirFlags 0x40)), ⟨[], true⟩) :=
  ⟨rfl, rfl⟩

/-- C7 (amended): an empty remainder ends the sequence; a non-empty
remainder shorter than 13 bytes yields `NotEnoughData{needed: 13}`; a
leading `record_len` exceeding the remaining length yields
`NotEnoughData{needed: record_len}`; and the iterator is fused after a
record-framing error or the end of input — a `done` state keeps
producing nothing, and every framing error or empty remainder sets
`done` (a record body failing the `Metadata` decoder is yielded as an
error item but iteration continues with the next record). -/
theorem direntries_iterator :
    DirEntries.next ⟨[], false⟩ = (.stop, ⟨[], true⟩) ∧
    (∀ raw : List Nat, raw ≠ [] → raw.length < 13 →
       DirEntries.next ⟨raw, false⟩ =
         (.item (.error (.NotEnoughData raw.length 13)), ⟨raw, true⟩)) ∧
    (∀ raw : List Nat, 13 ≤ raw.length → raw.length < leBytes (raw.take 2) →
       DirEntries.next ⟨raw, false⟩ =
         (.item (.error (.NotEnoughData raw.length (leBytes (raw.take 2)))), ⟨raw, true⟩)) ∧
    (∀ s : DirEntries, s.done = true → DirEntries.next s = (.stop, s)) ∧
    (∀ s : DirEntries, s.done = false →
       ((∃ e, DirEntries.splitDirEntry s.raw = .err e) ∨ s.raw = []) →
       (DirEntries.next s).2.done = true) := by
  refine ⟨rfl, fun raw h1 h2 => ?_, fun raw h1 h2 => ?_, fun s h => ?_, fun s h h2 => ?_⟩
  · rcases raw with _ | ⟨a, t⟩
    · exact absurd rfl h1
    · have hsplit : DirEntries.splitDirEntry (a :: t) =
          .err (.NotEnoughData (a :: t).length 13) := by
        unfold DirEntries.splitDirEntry
        rw [if_neg (by simp), if_pos h2]
      unfold DirEntries.next
      rw [if_neg (by simp), hsplit]
  · rcases raw with _ | ⟨a, t⟩
    · simp at h1
    · have hsplit : DirEntries.splitDirEntry (a :: t) =
          .err (.NotEnoughData (a :: t).length (leBytes ((a :: t).take 2))) := by
        unfold DirEntries.splitDirEntry
        rw [if_neg (by simp), if_neg (Nat.not_lt.mpr h1), if_pos h2]
      unfold DirEntries.next
      rw [if_neg (by simp), hsplit]
  · simp [DirEntries.next, h]
  · rcases h2 with ⟨e, he⟩ | he
    · simp [DirEntries.next, h, he]
    · simp [DirEntries.next, DirEntries.splitDirEntry, h, he]

/-- C7 witness: a 3-byte remainder yields the short-prefix error and
sets `done`; a `done` state produces nothing. -/
theorem direntries_iterator_witness :
    (([1, 2, 3] : List Nat) ≠ [] ∧ ([1, 2, 3] : List Nat).length < 13 ∧
      DirEntries.next ⟨[1, 2, 3], false⟩ =
        (.item (.error (.NotEnoughData 3 13)), ⟨[1, 2, 3], true⟩)) ∧
    (DirEntries.next ⟨[1, 2, 3], true⟩ = (.stop, ⟨[1, 2, 3], true⟩)) :=
  ⟨⟨by decide, by decide, direntries_iterator.2.1 [1, 2, 3] (by decide) (by decide)⟩,
   direntries_iterator.2.2.2.1 ⟨[1, 2, 3], true⟩ rfl⟩

/-- C4: every capability-gated generated command whose feature bit is
clear returns `NotSupported` with an empty wire trace (no notification
subscription, no characteristic write), and every OLCP command returns
`NotSupported` with an empty wire trace when the OLCP characteristic is
absent. -/
theorem capability_gating (c : OtsClient) (env : Env) :
    (c.actionFeatures.testBit 0 = false → ∀ size type_,
       c.create env size type_ = ([], .error .NotSupported)) ∧
    (c.actionFeatures.testBit 1 = false → c.delete env = ([], .error .NotSupported)) ∧
    (c.actionFeatures.testBit 2 = false → ∀ offset length,
       c.check_sum env offset length = ([], .error .NotSupported)) ∧
    (c.actionFeatures.testBit 3 = false → ∀ param,
       c.execute env param = ([], .error .NotSupported)) ∧
    (c.actionFeatures.testBit 4 = false → ∀ offset length,
       c.do_read env offset length = ([], .error .NotSupported)) ∧
    (c.actionFeatures.testBit 5 = false → ∀ offset length mode,
       c.do_write env offset length mode = ([], .error .NotSupported)) ∧
    (c.actionFeatures.testBit 9 = false → c.abort env = ([], .error .NotSupported)) ∧
    (c.listFeatures.testBit 0 = false → ∀ id,
       c.do_go_to env id = ([], .error .NotSupported)) ∧
    (c.listFeatures.testBit 1 = false → ∀ o,
       c.order env o = ([], .error .NotSupported)) ∧
    (c.listFeatures.testBit 2 = false →
       c.number_of env = ([], .error .NotSupported)) ∧
    (c.listFeatures.testBit 3 = false →
       c.clear_mark env = ([], .error .NotSupported)) ∧
    (c.olcpPresent = false →
       c.first env = ([], .error .NotSupported) ∧
       c.last env = ([], .error .NotSupported) ∧
       c.do_previous env = ([], .error .NotSupported) ∧
       c.do_next env = ([], .error .NotSupported) ∧
       (∀ id, c.do_go_to env id = ([], .error .NotSupported)) ∧
       (∀ o, c.order env o = ([], .error .NotSupported)) ∧
       c.number_of env = ([], .error .NotSupported) ∧
       c.clear_mark env = ([], .error .NotSupported)) := by
  refine ⟨fun h size type_ => ?_, fun h => ?_, fun h offset length => ?_, fun h param => ?_,
          fun h offset length => ?_, fun h offset length mode => ?_, fun h => ?_,
          fun h id => ?_, fun h o => ?_, fun h => ?_, fun h => ?_, fun h => ?_⟩ <;>
    simp [OtsClient.create, OtsClient.delete, OtsClient.check_sum, OtsClient.execute,
      OtsClient.do_read, OtsClient.do_write, OtsClient.abort, OtsClient.first, OtsClient.last,
      OtsClient.do_previous, OtsClient.do_next, OtsClient.do_go_to, OtsClient.order,
      OtsClient.number_of, OtsClient.clear_mark, OtsClient.list_request, h]

/-- C4 witness: a client with both feature sets empty and no OLCP
characteristic refuses `do_write` and `number_of` locally with an empty
trace, against an environment that would answer. -/
theorem capability_gating_witness :
    (⟨0, 0, false⟩ : OtsClient).actionFeatures.testBit 5 = false ∧
    OtsClient.do_write ⟨0, 0, false⟩ ⟨fun _ _ => .error .NoResponse⟩ 0 4 0 =
      ([], .error .NotSupported) ∧
    (⟨0, 0, false⟩ : OtsClient).olcpPresent = false ∧
    OtsClient.number_of ⟨0, 0, false⟩ ⟨fun _ _ => .error .NoResponse⟩ =
      ([], .error .NotSupported) := by
  have h := capability_gating ⟨0, 0, false⟩ ⟨fun _ _ => .error .NoResponse⟩
  exact ⟨by decide, h.2.2.2.2.2.1 (by decide) 0 4 0, rfl,
    (h.2.2.2.2.2.2.2.2.2.2.2 rfl).2.2.2.2.2.2.1⟩

/-- C5: `previous` and `next` return `true` on a successful transaction,
`false` exactly when the transaction fails with the OLCP result code
`OutOfBounds`, and propagate every other error unchanged; `go_to`
returns `true` on success, `false` exactly on `ObjectIdNotFound`, and
propagates every other error unchanged. -/
theorem navigation_translation (c : OtsClient) (env : Env) :
    ((∀ u, (c.do_previous env).2 = .ok u → (c.previous env).2 = .ok true) ∧
     ((c.previous env).2 = .ok false ↔
        (c.do_previous env).2 = .error (.Core (.ListError .OutOfBounds))) ∧
     (∀ e, e ≠ .Core (.ListError .OutOfBounds) → (c.do_previous env).2 = .error e →
        (c.previous env).2 = .error e)) ∧
    ((∀ u, (c.do_next env).2 = .ok u → (c.next env).2 = .ok true) ∧
     ((c.next env).2 = .ok false ↔
        (c.do_next env).2 = .error (.Core (.ListError .OutOfBounds))) ∧
     (∀ e, e ≠ .Core (.ListError .OutOfBounds) → (c.do_next env).2 = .error e →
        (c.next env).2 = .error e)) ∧
    (∀ id,
     (∀ u, (c.do_go_to env id).2 = .ok u → (c.go_to env id).2 = .ok true) ∧
     ((c.go_to env id).2 = .ok false ↔
        (c.do_go_to env id).2 = .error (.Core (.ListError .ObjectIdNotFound))) ∧
     (∀ e, e ≠ .Core (.ListError .ObjectIdNotFound) → (c.do_go_to env id).2 = .error e →
        (c.go_to env id).2 = .error e)) := by
  refine ⟨⟨fun u h => ?_, ?_, fun e hne h => ?_⟩,
          ⟨fun u h => ?_, ?_, fun e hne h => ?_⟩,
          fun id => ⟨fun u h => ?_, ?_, fun e hne h => ?_⟩⟩
  · rcases hdp : c.do_previous env with ⟨tr, r⟩
    rw [hdp] at h; simp at h; subst h
    simp [OtsClient.previous, hdp]
  · rcases hdp : c.do_previous env with ⟨tr, r⟩
    simp only [OtsClient.previous, hdp]
    split <;> simp_all
  · rcases hdp : c.do_previous env with ⟨tr, r⟩
    rw [hdp] at h; simp at h; subst h
    simp only [OtsClient.previous, hdp]
  · rcases hdp : c.do_next env with ⟨tr, r⟩
    rw [hdp] at h; simp at h; subst h
    simp [OtsClient.next, hdp]
  · rcases hdp : c.do_next env with ⟨tr, r⟩
    simp only [OtsClient.next, hdp]
    split <;> simp_all
  · rcases hdp : c.do_next env with ⟨tr, r⟩
    rw [hdp] at h; simp at h; subst h
    simp only [OtsClient.next, hdp]
  · rcases hdp : c.do_go_to env id with ⟨tr, r⟩
    rw [hdp] at h; simp at h; subst h
    simp [OtsClient.go_to, hdp]
  · rcases hdp : c.do_go_to env id with ⟨tr, r⟩
    simp only [OtsClient.go_to, hdp]
    split <;> simp_all
  · rcases hdp : c.do_go_to env id with ⟨tr, r⟩
    rw [hdp] at h; simp at h; subst h
    simp only [OtsClient.go_to, hdp]

/-- C5 witness: against an environment notifying `70 03 05`
(OutOfBounds), `previous` returns `false`; against `70 05 08`
(ObjectIdNotFound), `go_to` returns `false`. -/
theorem navigation_translation_witness :
    (OtsClient.do_previous ⟨0, 1, true⟩ ⟨fun _ _ => .ok [0x70, 0x03, 0x05]⟩).2 =
      .error (.Core (.ListError .OutOfBounds)) ∧
    (OtsClient.previous ⟨0, 1, true⟩ ⟨fun _ _ => .ok [0x70, 0x03, 0x05]⟩).2 = .ok false ∧
    (OtsClient.go_to ⟨0, 1, true⟩ ⟨fun _ _ => .ok [0x70, 0x05, 0x08]⟩ 0xAB).2 = .ok false :=
  ⟨rfl,
   ((navigation_translation ⟨0, 1, true⟩ ⟨fun _ _ => .ok [0x70, 0x03, 0x05]⟩).1.2.1).mpr rfl,
   ((navigation_translation ⟨0, 1, true⟩ ⟨fun _ _ => .ok [0x70, 0x05, 0x08]⟩).2.2 0xAB).2.1.mpr
     rfl⟩
